import Mathlib

set_option maxRecDepth 100000

/-!
A shallow embedding of the RISC-V virtual-memory subsystem of a
capability-based microkernel (page-table walker, VSpace registry, MMU
invocation decoder/executor, VM fault translator, kernel-image manager),
translated from `src/arch/riscv/kernel/vspace.c` and
`src/arch/riscv/object/kernelimage.c`, together with theorems checking the
natural-language specification against the code.

Machine words are modelled as `Nat`; the packed page-table entry (PTE) word
follows the bit layout from the source (`pte_new`).  Pointer-valued state is
modelled as explicit finite maps; the global `current_lookup_fault` single-slot
relay is threaded explicitly through return values, as the specification's
design notes suggest.
-/

namespace SeL4

/-! ## Configuration constants

Modelled from the spec: the configuration headers are not part of the two
source files; we fix the standard RV64 Sv39 configuration (3 page-table
levels, 9 index bits per level, 4KiB pages) which the source asserts to be in
range (`CONFIG_PT_LEVELS > 1 && CONFIG_PT_LEVELS <= 4`). -/

def PT_INDEX_BITS : Nat := 9

def CONFIG_PT_LEVELS : Nat := 3

def seL4_PageBits : Nat := 12

def RISCV_4K_PageBits : Nat := 12

def seL4_PageTableBits : Nat := 12

def PTE_PPN_SHIFT : Nat := 10

def asidLowBits : Nat := 9

def asidHighBits : Nat := 7

def nASIDPools : Nat := 2 ^ asidHighBits

def asidInvalid : Nat := 0

def seL4_ASIDPoolBits : Nat := 12

def seL4_MinUntypedBits : Nat := 4

/-- Modelled from the spec: the fixed boundary address above which the kernel
window lives; user mappings must lie strictly below it.  The concrete value is
the usual RV64 kernel base; no claim depends on the value itself. -/
def kernelBase : Nat := 0xFFFFFFFF80000000

/-- Bit mask of `n` low bits, as the C macro `MASK`. -/
def MASK (n : Nat) : Nat := 2 ^ n - 1

/-- Page granularity (in address bits) covered by one entry of a level-`n`
table: `RISCV_GET_LVL_PGSIZE_BITS`. -/
def RISCV_GET_LVL_PGSIZE_BITS (n : Nat) : Nat :=
  PT_INDEX_BITS * (CONFIG_PT_LEVELS - n) + seL4_PageBits

/-- Index chunk of a virtual address for level `n`: `RISCV_GET_PT_INDEX`. -/
def RISCV_GET_PT_INDEX (addr n : Nat) : Nat :=
  (addr >>> RISCV_GET_LVL_PGSIZE_BITS n) &&& MASK PT_INDEX_BITS

/-! ## The Address Translator

Modelled from the spec: physical-to-virtual address translation is a given
bijective service, abstracted here as the identity. -/

def ptrFromPAddr (p : Nat) : Nat := p

def addrFromPPtr (p : Nat) : Nat := p

/-! ## PTE words -/

/-- The packed PTE word builder `pte_new`, arguments in source order:
ppn, sw, dirty, accessed, global, user, execute, write, read, valid.
Layout (from the source/spec): valid bit 0, read 1, write 2, execute 3,
user 4, global 5, accessed 6, dirty 7, sw 8-9, ppn from bit 10. -/
def pte_new (ppn sw dirty accessed global user execute write read valid : Nat) : Nat :=
  (ppn <<< PTE_PPN_SHIFT) ||| (sw <<< 8) ||| (dirty <<< 7) ||| (accessed <<< 6) |||
    (global <<< 5) ||| (user <<< 4) ||| (execute <<< 3) ||| (write <<< 2) |||
    (read <<< 1) ||| valid

/-- `isValidHWPageTable`: the low four bits (X/W/R/valid) equal exactly 1,
i.e. a valid entry that is a pointer to a next-level table. -/
def isValidHWPageTable (w : Nat) : Bool := (w &&& 0xf) == 1

/-- `getPPtrFromHWPTE`: recover the next-level table's kernel pointer from a
PTE word. -/
def getPPtrFromHWPTE (w : Nat) : Nat :=
  ptrFromPAddr ((w >>> PTE_PPN_SHIFT) <<< seL4_PageTableBits)

/-! ## Page-table memory -/

/-- A slot in page-table memory: a table base pointer plus an index. -/
structure PTSlot where
  base : Nat
  idx : Nat
deriving DecidableEq

/-- Page-table memory: maps (table base, index) to the stored PTE word. -/
def PTMem : Type := Nat → Nat → Nat

def readSlot (m : PTMem) (s : PTSlot) : Nat := m s.base s.idx

def writeSlot (m : PTMem) (s : PTSlot) (w : Nat) : PTMem :=
  fun b i => if b = s.base ∧ i = s.idx then w else m b i

/-- Read through an optional slot pointer.  The C code reads through the raw
pointer; the `none` case corresponds to a path on which the source never
initialised the pointer, and yields 0 here. -/
def readSlotOpt (m : PTMem) (s : Option PTSlot) : Nat :=
  match s with
  | some s => readSlot m s
  | none => 0

def writeSlotOpt (m : PTMem) (s : Option PTSlot) (w : Nat) : PTMem :=
  match s with
  | some s => writeSlot m s w
  | none => m

/-! ## Faults and statuses -/

inductive ExceptionStatus where
  | EXCEPTION_NONE
  | EXCEPTION_LOOKUP_FAULT
deriving DecidableEq

inductive LookupFault where
  | invalidRoot
  | missingCapability (bitsLeft : Nat)
deriving DecidableEq

/-! ## The page-table walker: `lookupPTSlot` -/

structure lookupPTSlot_ret_t where
  status : ExceptionStatus
  ptSlot : Option PTSlot
  missingPTLevel : Option Nat
  currentLookupFault : Option LookupFault
deriving DecidableEq

/-- The walk loop of `lookupPTSlot` (`for i = 2; i <= ptLevel; i++`), with the
remaining iteration count made explicit as `fuel = ptLevel - i + 1`.  At each
step, if the current slot's word is all zero the walk fails with a
missing-capability fault sized to the granularity of level `i - 1` (the level
of the table holding the absent entry); otherwise it dereferences the entry
and descends. -/
def lookupPTSlotAux (m : PTMem) (vptr : Nat) : PTSlot → Nat → Nat → lookupPTSlot_ret_t
  | slot, _, 0 => ⟨.EXCEPTION_NONE, some slot, none, none⟩
  | slot, i, fuel + 1 =>
    if readSlot m slot = 0 then
      ⟨.EXCEPTION_LOOKUP_FAULT, some slot, some i,
        some (.missingCapability (RISCV_GET_LVL_PGSIZE_BITS (i - 1)))⟩
    else
      lookupPTSlotAux m vptr
        ⟨getPPtrFromHWPTE (readSlot m slot), RISCV_GET_PT_INDEX vptr i⟩ (i + 1) fuel

/-- `lookupPTSlot(lvl1pt, vptr, ptLevel)` from the source: fails immediately on
a null root (leaving the slot unset), otherwise starts from the root slot at
the level-1 index and walks the loop. -/
def lookupPTSlot (m : PTMem) (lvl1pt vptr ptLevel : Nat) : lookupPTSlot_ret_t :=
  if lvl1pt = 0 then ⟨.EXCEPTION_LOOKUP_FAULT, none, none, none⟩
  else lookupPTSlotAux m vptr ⟨lvl1pt, RISCV_GET_PT_INDEX vptr 1⟩ 2 (ptLevel - 1)

/-! ## The VSpace registry: `findVSpaceForASID` -/

structure findVSpaceForASID_ret_t where
  status : ExceptionStatus
  vspace_root : Option Nat
  currentLookupFault : Option LookupFault
deriving DecidableEq

/-- The ASID table (`riscvKSASIDTable`): high ASID bits to pool pointer. -/
def ASIDTable : Type := Nat → Option Nat

/-- ASID pool contents: (pool pointer, low ASID bits) to VSpace root pointer. -/
def ASIDPools : Type := Nat → Nat → Option Nat

/-- `findVSpaceForASID`: splits the ASID into high bits (pool index into the
ASID table) and low bits (slot in the pool's array); a null table entry yields
an invalid-root fault, a null pool entry a missing-capability fault sized to
one level-1 (VSpace root) granularity, otherwise the stored root. -/
def findVSpaceForASID (tbl : ASIDTable) (pools : ASIDPools) (asid : Nat) :
    findVSpaceForASID_ret_t :=
  match tbl (asid >>> asidLowBits) with
  | none => ⟨.EXCEPTION_LOOKUP_FAULT, none, some .invalidRoot⟩
  | some poolPtr =>
    match pools poolPtr (asid &&& MASK asidLowBits) with
    | none =>
      ⟨.EXCEPTION_LOOKUP_FAULT, none,
        some (.missingCapability (RISCV_GET_LVL_PGSIZE_BITS 1))⟩
    | some vspace_root => ⟨.EXCEPTION_NONE, some vspace_root, none⟩

/-! ## VM rights -/

inductive vm_rights_t where
  | VMKernelOnly
  | VMReadOnly
  | VMReadWrite
  | VMWriteOnly
  | VMNoAccess
deriving DecidableEq

/-- Modelled from the spec: a capability rights mask carries allow-grant,
allow-read and allow-write bits. -/
structure seL4_CapRights_t where
  capAllowGrant : Bool
  capAllowRead : Bool
  capAllowWrite : Bool
deriving DecidableEq

/-- Modelled from the spec: decode of the rights-mask message word
(allowWrite bit 0, allowRead bit 1, allowGrant bit 2). -/
def rightsFromWord (w : Nat) : seL4_CapRights_t :=
  ⟨w.testBit 2, w.testBit 1, w.testBit 0⟩

def RISCVGetWriteFromVMRights (r : vm_rights_t) : Nat :=
  if r ≠ .VMNoAccess ∧ r ≠ .VMReadOnly then 1 else 0

def RISCVGetUserFromVMRights (r : vm_rights_t) : Nat :=
  if r ≠ .VMKernelOnly then 1 else 0

def RISCVGetReadFromVMRights (r : vm_rights_t) : Nat :=
  if r ≠ .VMNoAccess ∧ r ≠ .VMWriteOnly then 1 else 0

/-- `maskVMRights`, translated clause for clause from the source. -/
def maskVMRights (vm_rights : vm_rights_t) (cap_rights_mask : seL4_CapRights_t) :
    vm_rights_t :=
  if vm_rights = .VMNoAccess then .VMNoAccess
  else if vm_rights = .VMReadOnly ∧ cap_rights_mask.capAllowRead then .VMReadOnly
  else if vm_rights = .VMReadWrite ∧
      (cap_rights_mask.capAllowRead ∨ cap_rights_mask.capAllowWrite) then
    if ¬ cap_rights_mask.capAllowWrite then .VMReadOnly
    else if ¬ cap_rights_mask.capAllowRead then .VMWriteOnly
    else .VMReadWrite
  else if vm_rights = .VMWriteOnly ∧ cap_rights_mask.capAllowWrite then .VMWriteOnly
  else if vm_rights = .VMKernelOnly then .VMKernelOnly
  else .VMNoAccess

/-! ## The VM fault translator: `handleVMFault` -/

inductive RVRegister where
  | NEXTPC
  | SEPC
  | GPR (n : Nat)
deriving DecidableEq

def RegFile : Type := RVRegister → Nat

def setRegister (rf : RegFile) (r : RVRegister) (v : Nat) : RegFile :=
  fun r2 => if r2 = r then v else rf r2

def getRegister (rf : RegFile) (r : RVRegister) : Nat := rf r

inductive vm_fault_type_t where
  | RISCVLoadPageFault
  | RISCVLoadAccessFault
  | RISCVStorePageFault
  | RISCVStoreAccessFault
  | RISCVInstructionPageFault
  | RISCVInstructionAccessFault
  | RISCVOtherFault (code : Nat)
deriving DecidableEq

/-- A delivered VM fault (`seL4_Fault_VMFault_new(addr, type, instructionFault)`). -/
structure VMFault where
  addr : Nat
  faultType : vm_fault_type_t
  instructionFault : Bool
deriving DecidableEq

/-- `handleVMFault`: translates a hardware trap cause into a typed VM fault,
given the thread's registers and the faulting address read from `sbadaddr`.
The result is the updated register file together with the recorded fault;
`none` models the kernel-fatal `fail` on an unrecognized cause. -/
def handleVMFault (regs : RegFile) (vm_faultType : vm_fault_type_t) (badaddr : Nat) :
    Option (RegFile × VMFault) :=
  match vm_faultType with
  | .RISCVLoadPageFault =>
    some (regs, ⟨badaddr, .RISCVLoadAccessFault, false⟩)
  | .RISCVLoadAccessFault =>
    some (regs, ⟨badaddr, .RISCVLoadAccessFault, false⟩)
  | .RISCVStorePageFault =>
    some (regs, ⟨badaddr, .RISCVStoreAccessFault, false⟩)
  | .RISCVStoreAccessFault =>
    some (regs, ⟨badaddr, .RISCVStoreAccessFault, false⟩)
  | .RISCVInstructionPageFault =>
    some (setRegister regs .NEXTPC (getRegister regs .SEPC),
      ⟨badaddr, .RISCVInstructionAccessFault, true⟩)
  | .RISCVInstructionAccessFault =>
    some (setRegister regs .NEXTPC (getRegister regs .SEPC),
      ⟨badaddr, .RISCVInstructionAccessFault, true⟩)
  | .RISCVOtherFault _ => none

/-! ## Page sizes -/

inductive vm_page_size_t where
  | RISCV_4K_Page
  | RISCV_Mega_Page
  | RISCV_Giga_Page
deriving DecidableEq

/-- Modelled from the spec: the address bits of each page size class. -/
def pageBitsForSize (sz : vm_page_size_t) : Nat :=
  match sz with
  | .RISCV_4K_Page => 12
  | .RISCV_Mega_Page => 21
  | .RISCV_Giga_Page => 30

/-- Modelled from the spec: the page-table level whose leaf entry maps a page
of the given size class (`RISCVpageAtPTLevel`): 4K pages live at the deepest
level, giga pages at the root. -/
def RISCVpageAtPTLevel (sz : vm_page_size_t) : Nat :=
  match sz with
  | .RISCV_4K_Page => CONFIG_PT_LEVELS
  | .RISCV_Mega_Page => CONFIG_PT_LEVELS - 1
  | .RISCV_Giga_Page => CONFIG_PT_LEVELS - 2

def checkVPAlignment (sz : vm_page_size_t) (w : Nat) : Bool :=
  (w &&& MASK (pageBitsForSize sz)) == 0

/-- Modelled from the spec: `vm_attributes` carries the execute-never bit. -/
structure vm_attributes_t where
  riscvExecuteNever : Bool
deriving DecidableEq

def vmAttributesFromWord (w : Nat) : vm_attributes_t := ⟨w.testBit 0⟩

/-! ## Capabilities -/

inductive cap_t where
  | null_cap
  | page_table_cap (capPTMappedASID : Nat) (capPTBasePtr : Nat)
      (capPTIsMapped : Bool) (capPTMappedAddress : Nat)
  | frame_cap (capFMappedASID : Nat) (capFBasePtr : Nat) (capFSize : vm_page_size_t)
      (capFVMRights : vm_rights_t) (capFIsDevice : Bool) (capFMappedAddress : Nat)
  | asid_control_cap
  | asid_pool_cap (capASIDBase : Nat) (capASIDPool : Nat)
  | untyped_cap (capIsDevice : Bool) (capBlockSize : Nat) (capPtr : Nat)
      (capFreeIndex : Nat)
  | other_cap (tag : Nat)
deriving DecidableEq

namespace cap_t

/-- Field getters mirror the generated bitfield accessors of the source; on a
capability of another type (undefined behaviour in C) they yield 0/false. -/
def get_capPTMappedASID : cap_t → Nat
  | .page_table_cap a _ _ _ => a
  | _ => 0

def get_capPTBasePtr : cap_t → Nat
  | .page_table_cap _ b _ _ => b
  | _ => 0

def get_capPTIsMapped : cap_t → Bool
  | .page_table_cap _ _ m _ => m
  | _ => false

def get_capPTMappedAddress : cap_t → Nat
  | .page_table_cap _ _ _ v => v
  | _ => 0

def set_capPTMappedASID : cap_t → Nat → cap_t
  | .page_table_cap _ b m v, a => .page_table_cap a b m v
  | c, _ => c

def set_capPTIsMapped : cap_t → Bool → cap_t
  | .page_table_cap a b _ v, m => .page_table_cap a b m v
  | c, _ => c

def set_capPTMappedAddress : cap_t → Nat → cap_t
  | .page_table_cap a b m _, v => .page_table_cap a b m v
  | c, _ => c

def get_capFMappedASID : cap_t → Nat
  | .frame_cap a _ _ _ _ _ => a
  | _ => 0

def get_capFBasePtr : cap_t → Nat
  | .frame_cap _ b _ _ _ _ => b
  | _ => 0

def get_capFSize : cap_t → vm_page_size_t
  | .frame_cap _ _ s _ _ _ => s
  | _ => .RISCV_4K_Page

def get_capFVMRights : cap_t → vm_rights_t
  | .frame_cap _ _ _ r _ _ => r
  | _ => .VMNoAccess

def get_capFMappedAddress : cap_t → Nat
  | .frame_cap _ _ _ _ _ v => v
  | _ => 0

def set_capFMappedASID : cap_t → Nat → cap_t
  | .frame_cap _ b s r d v, a => .frame_cap a b s r d v
  | c, _ => c

def set_capFMappedAddress : cap_t → Nat → cap_t
  | .frame_cap a b s r d _, v => .frame_cap a b s r d v
  | c, _ => c

def get_capASIDBase : cap_t → Nat
  | .asid_pool_cap b _ => b
  | _ => 0

def get_capASIDPool : cap_t → Nat
  | .asid_pool_cap _ p => p
  | _ => 0

def get_capIsDevice : cap_t → Bool
  | .untyped_cap d _ _ _ => d
  | _ => false

def get_capBlockSize : cap_t → Nat
  | .untyped_cap _ b _ _ => b
  | _ => 0

def get_capPtr : cap_t → Nat
  | .untyped_cap _ _ p _ => p
  | _ => 0

def set_capFreeIndex : cap_t → Nat → cap_t
  | .untyped_cap d b p _, f => .untyped_cap d b p f
  | c, _ => c

def isPageTableCap : cap_t → Bool
  | .page_table_cap _ _ _ _ => true
  | _ => false

def isFrameCap : cap_t → Bool
  | .frame_cap _ _ _ _ _ _ => true
  | _ => false

def isUntypedCap : cap_t → Bool
  | .untyped_cap _ _ _ _ => true
  | _ => false

end cap_t

/-- `MAX_FREE_INDEX` of an untyped block (modelled from the spec's retype
collaborator). -/
def MAX_FREE_INDEX (sizeBits : Nat) : Nat := 2 ^ (sizeBits - seL4_MinUntypedBits)

/-! ## Kernel state

The claims concern page-table memory, the ASID registry and capability
slots; those are the state components carried here.  The `current_lookup_fault`
and `current_syscall_error` globals are threaded as explicit result values. -/

/-- Modelled from the spec: the base pointer of the global kernel level-1
page table `kernel_pageTables[0]`, whose high entries form the kernel window
replicated into each new VSpace root.  An arbitrary fixed table base. -/
def kernel_pageTables_base : Nat := 0x84000000

structure KState where
  ptMem : PTMem
  riscvKSASIDTable : ASIDTable
  asidPools : ASIDPools
  cteCaps : Nat → cap_t
  threadStateRestarted : Bool
  lastReply : Option Nat

def setThreadStateRestart (ks : KState) : KState :=
  { ks with threadStateRestarted := true }

def updateCte (ks : KState) (p : Nat) (c : cap_t) : KState :=
  { ks with cteCaps := fun q => if q = p then c else ks.cteCaps q }

/-- `copyGlobalMappings`: replicate the kernel-window entries (all level-1
indices from the kernel base index up) of the global kernel table into a new
root. -/
def copyGlobalMappings (ks : KState) (newLvl1pt : Nat) : KState :=
  { ks with
    ptMem := fun b i =>
      if b = newLvl1pt ∧ RISCV_GET_PT_INDEX kernelBase 1 ≤ i ∧ i < 2 ^ PT_INDEX_BITS then
        ks.ptMem kernel_pageTables_base i
      else ks.ptMem b i }

/-- `clearMemory(pt, RISCV_4K_PageBits)`: zero the page table object itself. -/
def clearMemoryPT (ks : KState) (pt : Nat) : KState :=
  { ks with ptMem := fun b i => if b = pt then 0 else ks.ptMem b i }

/-! ## `isVTableRoot` and friends -/

/-- `isVTableRoot`: the capability is a page-table capability whose mapped
ASID currently resolves (via the registry) to the capability's own base
pointer. -/
def isVTableRoot (ks : KState) (cap : cap_t) : Bool :=
  let ret := findVSpaceForASID ks.riscvKSASIDTable ks.asidPools
    (cap.get_capPTMappedASID)
  cap.isPageTableCap && ret.status == .EXCEPTION_NONE &&
    ret.vspace_root == some cap.get_capPTBasePtr

/-- `isValidNativeRoot`. -/
def isValidNativeRoot (ks : KState) (cap : cap_t) : Bool :=
  isVTableRoot ks cap && cap.get_capPTIsMapped

/-! ## `lookupPageTableLevelSlot` and `unmapPageTable` -/

/-- The walk loop of `lookupPageTableLevelSlot` (`for i = 2; i <=
CONFIG_PT_LEVELS; i++`), fuel counting the remaining iterations.  At each
step: if the current slot does not hold a valid next-level pointer, fail
(keeping the slot); if the child table is the sought one, succeed returning
`child + RISCV_GET_PT_INDEX(vptr, i - 1)` exactly as the source does;
otherwise descend.  Falling off the loop fails with the last slot. -/
def lookupPageTableLevelSlotAux (m : PTMem) (vptr target_pt : Nat) :
    PTSlot → Nat → Nat → ExceptionStatus × Option PTSlot
  | slot, _, 0 => (.EXCEPTION_LOOKUP_FAULT, some slot)
  | slot, i, fuel + 1 =>
    if ¬ isValidHWPageTable (readSlot m slot) then (.EXCEPTION_LOOKUP_FAULT, some slot)
    else
      let pt := getPPtrFromHWPTE (readSlot m slot)
      if pt = target_pt then
        (.EXCEPTION_NONE, some ⟨pt, RISCV_GET_PT_INDEX vptr (i - 1)⟩)
      else
        lookupPageTableLevelSlotAux m vptr target_pt
          ⟨pt, RISCV_GET_PT_INDEX vptr i⟩ (i + 1) fuel

/-- `lookupPageTableLevelSlot(asid, vptr, target_pt)`: resolve the ASID to a
root and walk looking for the slot whose child is the target table.  On a
registry failure the returned slot is the C function's uninitialised local,
modelled as `none`. -/
def lookupPageTableLevelSlot (ks : KState) (asid vptr target_pt : Nat) :
    ExceptionStatus × Option PTSlot :=
  match (findVSpaceForASID ks.riscvKSASIDTable ks.asidPools asid).vspace_root with
  | none => (.EXCEPTION_LOOKUP_FAULT, none)
  | some root =>
    lookupPageTableLevelSlotAux ks.ptMem vptr target_pt
      ⟨root, RISCV_GET_PT_INDEX vptr 1⟩ 2 (CONFIG_PT_LEVELS - 1)

/-- `unmapPageTable`, exactly as in the source: the all-zero-invalid PTE is
written (followed by an `sfence.vma`, not modelled) only when the lookup's
status is NOT `EXCEPTION_NONE`; when the parent slot is found successfully
nothing is written.  On the path where the C local `ptSlot` was never
initialised (`none` here) the write goes through a wild pointer; it is
modelled as a no-op. -/
def unmapPageTable (ks : KState) (asid vaddr pt : Nat) : KState :=
  let pt_ret := lookupPageTableLevelSlot ks asid vaddr pt
  if pt_ret.1 ≠ .EXCEPTION_NONE then
    { ks with ptMem := writeSlotOpt ks.ptMem pt_ret.2 (pte_new 0 0 0 0 0 0 0 0 0 0) }
  else ks

/-- `unmapPage`: resolve the ASID, walk to the level of the page size, and on
success clear the slot to the all-zero invalid PTE. -/
def unmapPage (ks : KState) (page_size : vm_page_size_t) (asid vptr _pptr : Nat) :
    KState :=
  let find_ret := findVSpaceForASID ks.riscvKSASIDTable ks.asidPools asid
  match find_ret.vspace_root with
  | none => ks
  | some root =>
    let lu_ret := lookupPTSlot ks.ptMem root vptr (RISCVpageAtPTLevel page_size)
    if lu_ret.status ≠ .EXCEPTION_NONE then ks
    else { ks with ptMem := writeSlotOpt ks.ptMem lu_ret.ptSlot 0 }

/-! ## Syscall errors and decode outcomes -/

inductive syscall_error_t where
  | illegalOperation
  | invalidCapability (invalidCapNumber : Nat)
  | invalidArgument (invalidArgumentNumber : Nat)
  | alignmentError
  | truncatedMessage
  | deleteFirst
  | revokeFirst
  | failedLookup (failedLookupWasSource : Bool)
deriving DecidableEq

inductive DecodeOutcome where
  | success
  | syscallError (e : syscall_error_t)
  | fatal
deriving DecidableEq

/-! ## Executor (perform) functions

Each perform function is a pure state transformer; the source defines them to
always return `EXCEPTION_NONE`, which the decoders reflect by pairing the
result with `DecodeOutcome.success`. -/

/-- `performPageTableInvocationMap`: store the updated capability and write
the new PTE into the destination slot. -/
def performPageTableInvocationMap (ks : KState) (cap : cap_t) (ctSlot : Nat)
    (pte : Nat) (ptSlot : Option PTSlot) : KState :=
  let ks1 := updateCte ks ctSlot cap
  { ks1 with ptMem := writeSlotOpt ks1.ptMem ptSlot pte }

/-- `performPageTableInvocationUnmap`: if the capability is mapped, run
`unmapPageTable` and zero the table's own memory; then clear the stored
capability's is-mapped flag. -/
def performPageTableInvocationUnmap (ks : KState) (cap : cap_t) (ctSlot : Nat) :
    KState :=
  let ks1 :=
    if cap.get_capPTIsMapped then
      let pt := cap.get_capPTBasePtr
      clearMemoryPT
        (unmapPageTable ks cap.get_capPTMappedASID cap.get_capPTMappedAddress pt) pt
    else ks
  updateCte ks1 ctSlot ((ks1.cteCaps ctSlot).set_capPTIsMapped false)

/-- A contiguous run of PTE slots (`pte_range_t`). -/
structure pte_range_t where
  base : Option PTSlot
  length : Nat
deriving DecidableEq

/-- `updatePTE`: write the PTE value into each slot of the range (followed by
a full local `sfence.vma`, not modelled). -/
def updatePTE (ks : KState) (pte : Nat) (pte_entries : pte_range_t) : KState :=
  match pte_entries.base with
  | none => ks
  | some s =>
    { ks with
      ptMem := fun b i =>
        if b = s.base ∧ s.idx ≤ i ∧ i < s.idx + pte_entries.length then pte
        else ks.ptMem b i }

def performPageInvocationMapPTE (ks : KState) (cap : cap_t) (ctSlot : Nat)
    (pte : Nat) (pte_entries : pte_range_t) : KState :=
  updatePTE (updateCte ks ctSlot cap) pte pte_entries

def performPageInvocationRemapPTE (ks : KState) (pte : Nat)
    (pte_entries : pte_range_t) : KState :=
  updatePTE ks pte pte_entries

/-- `performPageInvocationUnmap`: unmap the page if the capability is mapped,
then reset the stored capability's mapped-address/ASID fields. -/
def performPageInvocationUnmap (ks : KState) (cap : cap_t) (ctSlot : Nat) : KState :=
  let ks1 :=
    if cap.get_capFMappedASID ≠ asidInvalid then
      unmapPage ks cap.get_capFSize cap.get_capFMappedASID
        cap.get_capFMappedAddress cap.get_capFBasePtr
    else ks
  let ks2 := updateCte ks1 ctSlot ((ks1.cteCaps ctSlot).set_capFMappedAddress 0)
  updateCte ks2 ctSlot ((ks2.cteCaps ctSlot).set_capFMappedASID asidInvalid)

/-- `performPageGetAddress`: reply with the frame's physical base in the first
message register. -/
def performPageGetAddress (ks : KState) (vbase_ptr : Nat) : KState :=
  { ks with lastReply := some (addrFromPPtr vbase_ptr) }

/-- `performASIDControlInvocation`: exhaust the parent untyped capability's
free index, zero the new pool's memory, insert the granting pool capability
into the destination slot, and install the pool in the ASID table. -/
def performASIDControlInvocation (ks : KState) (frame : Nat) (slot parent : Nat)
    (asid_base : Nat) : KState :=
  let ks1 := updateCte ks parent
    ((ks.cteCaps parent).set_capFreeIndex
      (MAX_FREE_INDEX ((ks.cteCaps parent).get_capBlockSize)))
  let ks2 := { ks1 with
    asidPools := fun p i => if p = frame then none else ks1.asidPools p i }
  let ks3 := updateCte ks2 slot (.asid_pool_cap asid_base frame)
  { ks3 with
    riscvKSASIDTable := fun i =>
      if i = asid_base >>> asidLowBits then some frame else ks3.riscvKSASIDTable i }

/-- `performASIDPoolInvocation`: stamp the VSpace-root capability with the
chosen ASID and mapped status, replicate the kernel window into the new root,
and record the root in the pool's array. -/
def performASIDPoolInvocation (ks : KState) (asid : Nat) (poolPtr : Nat)
    (vspaceCapSlot : Nat) : KState :=
  let regionBase := (ks.cteCaps vspaceCapSlot).get_capPTBasePtr
  let cap1 := ((ks.cteCaps vspaceCapSlot).set_capPTMappedASID asid).set_capPTIsMapped
    true
  let ks1 := updateCte ks vspaceCapSlot cap1
  let ks2 := copyGlobalMappings ks1 regionBase
  { ks2 with
    asidPools := fun p i =>
      if p = poolPtr ∧ i = (asid &&& MASK asidLowBits) then some regionBase
      else ks2.asidPools p i }

/-! ## Invocation labels and the decoders -/

inductive InvocationLabel where
  | RISCVPageTableMap
  | RISCVPageTableUnmap
  | RISCVPageMap
  | RISCVPageRemap
  | RISCVPageUnmap
  | RISCVPageGetAddress
  | RISCVASIDControlMakePool
  | RISCVASIDPoolAssign
  | otherLabel (n : Nat)
deriving DecidableEq

/-- `makeUserPTE`. -/
def makeUserPTE (paddr : Nat) (executable : Nat) (vm_rights : vm_rights_t) : Nat :=
  pte_new (paddr >>> RISCV_4K_PageBits) 0 1 1 0 (RISCVGetUserFromVMRights vm_rights)
    executable (RISCVGetWriteFromVMRights vm_rights)
    (RISCVGetReadFromVMRights vm_rights) 1

/-- `createSafeMappingEntries_PTE`: encode the PTE for the request and locate
the destination slot by walking to the level of the frame's size; a failed
walk yields `none` (the source reports `seL4_FailedLookup`, source = false). -/
def createSafeMappingEntries_PTE (m : PTMem) (base vaddr : Nat)
    (frameSize : vm_page_size_t) (vmRights : vm_rights_t) (attr : vm_attributes_t)
    (lvl1pt : Nat) : Option (Nat × pte_range_t) :=
  let executable : Nat := if attr.riscvExecuteNever then 0 else 1
  let pte := makeUserPTE base executable vmRights
  let lu_ret := lookupPTSlot m lvl1pt vaddr (RISCVpageAtPTLevel frameSize)
  if lu_ret.status ≠ .EXCEPTION_NONE then none
  else some (pte, ⟨lu_ret.ptSlot, 1⟩)

/-- `decodeRISCVPageTableInvocation`.  Arguments: message label, message
length, the invoked capability's slot and value, the first extra capability's
slot (if any), and the syscall argument words. -/
def decodeRISCVPageTableInvocation (ks : KState) (label : InvocationLabel)
    (length : Nat) (cte : Nat) (cap : cap_t) (extraCap0 : Option Nat)
    (args : Nat → Nat) : KState × DecodeOutcome :=
  if isVTableRoot ks cap then (ks, .syscallError .illegalOperation)
  else if label = .RISCVPageTableUnmap then
    (performPageTableInvocationUnmap (setThreadStateRestart ks) cap cte, .success)
  else if label ≠ .RISCVPageTableMap then (ks, .syscallError .illegalOperation)
  else if length < 2 then (ks, .syscallError .truncatedMessage)
  else
    match extraCap0 with
    | none => (ks, .syscallError .truncatedMessage)
    | some ec =>
      let vaddr := args 0
      let lvl1ptCap := ks.cteCaps ec
      if ¬ isValidNativeRoot ks lvl1ptCap then
        (ks, .syscallError (.invalidCapability 1))
      else if ¬ lvl1ptCap.isPageTableCap then
        (ks, .syscallError (.invalidCapability 1))
      else if ¬ isVTableRoot ks lvl1ptCap then
        (ks, .syscallError (.invalidCapability 1))
      else
        let lvl1pt := lvl1ptCap.get_capPTBasePtr
        let asid := lvl1ptCap.get_capPTMappedASID
        if kernelBase ≤ vaddr then (ks, .syscallError (.invalidArgument 0))
        else
          let find_ret := findVSpaceForASID ks.riscvKSASIDTable ks.asidPools asid
          if find_ret.status ≠ .EXCEPTION_NONE then
            (ks, .syscallError (.failedLookup false))
          else if find_ret.vspace_root ≠ some lvl1pt then
            (ks, .syscallError (.invalidCapability 1))
          else
            let lu_ret := lookupPTSlot ks.ptMem lvl1pt vaddr CONFIG_PT_LEVELS
            if readSlotOpt ks.ptMem lu_ret.ptSlot ≠ 0 then
              (ks, .syscallError .deleteFirst)
            else
              let paddr := addrFromPPtr cap.get_capPTBasePtr
              let pte := pte_new (paddr >>> RISCV_4K_PageBits) 0 1 1 0 0 0 0 0 1
              let cap1 := ((cap.set_capPTIsMapped true).set_capPTMappedASID
                asid).set_capPTMappedAddress vaddr
              (performPageTableInvocationMap (setThreadStateRestart ks) cap1 cte pte
                lu_ret.ptSlot, .success)

/-- `decodeRISCVFrameInvocation`. -/
def decodeRISCVFrameInvocation (ks : KState) (label : InvocationLabel)
    (length : Nat) (cte : Nat) (cap : cap_t) (extraCap0 : Option Nat)
    (args : Nat → Nat) : KState × DecodeOutcome :=
  match label with
  | .RISCVPageMap =>
    if length < 3 then (ks, .syscallError .truncatedMessage)
    else
      match extraCap0 with
      | none => (ks, .syscallError .truncatedMessage)
      | some ec =>
        let vaddr := args 0
        let w_rightsMask := args 1
        let attr := vmAttributesFromWord (args 2)
        let lvl1ptCap := ks.cteCaps ec
        let frameSize := cap.get_capFSize
        let capVMRights := cap.get_capFVMRights
        if cap.get_capFMappedASID ≠ asidInvalid ∧
            cap.get_capFMappedAddress ≠ vaddr then
          (ks, .syscallError (.invalidCapability 0))
        else if ¬ lvl1ptCap.isPageTableCap then
          (ks, .syscallError (.invalidCapability 1))
        else if ¬ isVTableRoot ks lvl1ptCap then
          (ks, .syscallError (.invalidCapability 1))
        else
          let lvl1pt := lvl1ptCap.get_capPTBasePtr
          let lu_ret := lookupPTSlot ks.ptMem lvl1pt vaddr
            (RISCVpageAtPTLevel frameSize)
          if lu_ret.status ≠ .EXCEPTION_NONE then
            (ks, .syscallError (.failedLookup false))
          else
            let asid := lvl1ptCap.get_capPTMappedASID
            let find_ret := findVSpaceForASID ks.riscvKSASIDTable ks.asidPools asid
            if find_ret.status ≠ .EXCEPTION_NONE then
              (ks, .syscallError (.failedLookup false))
            else if find_ret.vspace_root ≠ some lvl1pt then
              (ks, .syscallError (.invalidCapability 1))
            else
              let vtop := vaddr + 2 ^ pageBitsForSize frameSize - 1
              if kernelBase ≤ vtop then (ks, .syscallError (.invalidArgument 0))
              else
                let vmRights := maskVMRights capVMRights
                  (rightsFromWord w_rightsMask)
                if ¬ checkVPAlignment frameSize vaddr then
                  (ks, .syscallError .alignmentError)
                else
                  let frame_paddr := addrFromPPtr cap.get_capFBasePtr
                  let cap1 := (cap.set_capFMappedASID asid).set_capFMappedAddress
                    vaddr
                  match createSafeMappingEntries_PTE ks.ptMem frame_paddr vaddr
                    frameSize vmRights attr lvl1pt with
                  | none => (ks, .syscallError (.failedLookup false))
                  | some (pte, pte_entries) =>
                    (performPageInvocationMapPTE (setThreadStateRestart ks) cap1
                      cte pte pte_entries, .success)
  | .RISCVPageRemap =>
    if length < 2 then (ks, .syscallError .truncatedMessage)
    else
      match extraCap0 with
      | none => (ks, .syscallError .truncatedMessage)
      | some ec =>
        let w_rightsMask := args 0
        let attr := vmAttributesFromWord (args 1)
        let lvl1ptCap := ks.cteCaps ec
        let frameSize := cap.get_capFSize
        let capVMRights := cap.get_capFVMRights
        if ¬ lvl1ptCap.isPageTableCap then
          (ks, .syscallError (.invalidCapability 1))
        else if ¬ isVTableRoot ks lvl1ptCap then
          (ks, .syscallError (.invalidCapability 1))
        else if cap.get_capFMappedASID = asidInvalid then
          (ks, .syscallError (.invalidCapability 0))
        else
          let vaddr := cap.get_capFMappedAddress
          let asid := lvl1ptCap.get_capPTMappedASID
          let lvl1pt := lvl1ptCap.get_capPTBasePtr
          let find_ret := findVSpaceForASID ks.riscvKSASIDTable ks.asidPools asid
          if find_ret.status ≠ .EXCEPTION_NONE then
            (ks, .syscallError (.failedLookup false))
          else if find_ret.vspace_root ≠ some lvl1pt then
            (ks, .syscallError (.invalidCapability 1))
          else
            let lu_ret := lookupPTSlot ks.ptMem lvl1pt vaddr
              (RISCVpageAtPTLevel frameSize)
            if lu_ret.status ≠ .EXCEPTION_NONE then
              (ks, .syscallError (.failedLookup false))
            else
              let vmRights := maskVMRights capVMRights (rightsFromWord w_rightsMask)
              let frame_paddr := addrFromPPtr cap.get_capFBasePtr
              match createSafeMappingEntries_PTE ks.ptMem frame_paddr vaddr
                frameSize vmRights attr lvl1pt with
              | none => (ks, .syscallError (.failedLookup false))
              | some (pte, pte_entries) =>
                (performPageInvocationRemapPTE (setThreadStateRestart ks) pte
                  pte_entries, .success)
  | .RISCVPageUnmap =>
    (performPageInvocationUnmap (setThreadStateRestart ks) cap cte, .success)
  | .RISCVPageGetAddress =>
    (performPageGetAddress (setThreadStateRestart ks) cap.get_capFBasePtr, .success)
  | _ => (ks, .syscallError .illegalOperation)

/-- Modelled from the spec: the capability-space collaborator consumed as an
opaque service ("insert/locate/ensure-empty capability slot").  Each operation
either succeeds or yields the syscall error it reports. -/
structure CSpaceEnv where
  ensureNoChildren : Nat → Option syscall_error_t
  lookupTargetSlot : cap_t → Nat → Nat → Except syscall_error_t Nat
  ensureEmptySlot : Nat → Option syscall_error_t

/-- The linear scan `for (i = 0; i < n && occupied(i); i++)`, with fuel `n`
starting from index 0; returns the final loop index (which equals `n` exactly
when every index was occupied). -/
def linScanAux (occupied : Nat → Bool) : Nat → Nat → Nat
  | i, 0 => i
  | i, fuel + 1 => if occupied i then linScanAux occupied (i + 1) fuel else i

def linScan (occupied : Nat → Bool) (n : Nat) : Nat := linScanAux occupied 0 n

/-- `decodeRISCVMMUInvocation`: dispatch on the invoked capability's type.
The `cptr` argument of the source is unused by the decode logic and omitted.
A capability that is not an MMU capability is a kernel-fatal condition
(`fail`). -/
def decodeRISCVMMUInvocation (env : CSpaceEnv) (ks : KState)
    (label : InvocationLabel) (length : Nat) (cte : Nat) (cap : cap_t)
    (extraCap0 extraCap1 : Option Nat) (args : Nat → Nat) :
    KState × DecodeOutcome :=
  match cap with
  | .page_table_cap _ _ _ _ =>
    decodeRISCVPageTableInvocation ks label length cte cap extraCap0 args
  | .frame_cap _ _ _ _ _ _ =>
    decodeRISCVFrameInvocation ks label length cte cap extraCap0 args
  | .asid_control_cap =>
    if label ≠ .RISCVASIDControlMakePool then (ks, .syscallError .illegalOperation)
    else if length < 2 then (ks, .syscallError .truncatedMessage)
    else
      match extraCap0, extraCap1 with
      | some parentSlot, some rootSlot =>
        let index := args 0
        let depth := args 1
        let untyped := ks.cteCaps parentSlot
        let root := ks.cteCaps rootSlot
        let i := linScan (fun j => (ks.riscvKSASIDTable j).isSome) nASIDPools
        if i = nASIDPools then (ks, .syscallError .deleteFirst)
        else
          let asid_base := i <<< asidLowBits
          if ¬ untyped.isUntypedCap ∨ untyped.get_capBlockSize ≠ seL4_ASIDPoolBits ∨
              untyped.get_capIsDevice then
            (ks, .syscallError (.invalidCapability 1))
          else
            match env.ensureNoChildren parentSlot with
            | some e => (ks, .syscallError e)
            | none =>
              let frame := untyped.get_capPtr
              match env.lookupTargetSlot root index depth with
              | .error e => (ks, .syscallError e)
              | .ok destSlot =>
                match env.ensureEmptySlot destSlot with
                | some e => (ks, .syscallError e)
                | none =>
                  (performASIDControlInvocation (setThreadStateRestart ks) frame
                    destSlot parentSlot asid_base, .success)
      | _, _ => (ks, .syscallError .truncatedMessage)
  | .asid_pool_cap _ _ =>
    if label ≠ .RISCVASIDPoolAssign then (ks, .syscallError .illegalOperation)
    else
      match extraCap0 with
      | none => (ks, .syscallError .truncatedMessage)
      | some vspaceCapSlot =>
        let vspaceCap := ks.cteCaps vspaceCapSlot
        if vspaceCap.get_capPTMappedASID ≠ asidInvalid then
          (ks, .syscallError (.invalidCapability 1))
        else
          match ks.riscvKSASIDTable (cap.get_capASIDBase >>> asidLowBits) with
          | none => (ks, .syscallError (.failedLookup false))
          | some pool =>
            if pool ≠ cap.get_capASIDPool then
              (ks, .syscallError (.invalidCapability 0))
            else
              let asid := cap.get_capASIDBase
              let i := linScan
                (fun j => asid + j == 0 || (ks.asidPools pool j).isSome)
                (2 ^ asidLowBits)
              if i = 2 ^ asidLowBits then (ks, .syscallError .deleteFirst)
              else
                (performASIDPoolInvocation (setThreadStateRestart ks) (asid + i)
                  pool vspaceCapSlot, .success)
  | _ => (ks, .fatal)

/-! ## Kernel image manager: `Arch_setKernelImage`

The switch routine's observable behaviour is its sequence of actions: the
word-by-word stack copy performed by the inline assembly loop, the `fence`
instruction at the loop's end, the `setVSpaceRoot` write of the hardware
translation-root register, and the write of the image's stack-initialized
flag.  These are modelled as an event trace in program order, alongside the
updated image record. -/

structure kernel_image_t where
  kiRoot : Nat
  kiASID : Nat
  kiStackInitted : Bool
deriving DecidableEq

inductive KIEvent where
  | copyWord (src dst : Nat)
  | fenceBarrier
  | setRoot (rootPaddr asid : Nat)
  | setFlag
deriving DecidableEq, BEq

/-- The assembly copy loop: `while (stack_p != sp) { stack_p -= 8; image_p -=
8; *image_p = *stack_p; }`, unrolled over its iteration count.  Each event
records the 8-byte source and destination addresses, highest addresses
first. -/
def stackCopyEvents (stack_p image_p : Nat) : Nat → List KIEvent
  | 0 => []
  | n + 1 =>
    .copyWord (stack_p - 8) (image_p - 8) ::
      stackCopyEvents (stack_p - 8) (image_p - 8) n

/-- `Arch_setKernelImage`.  `sp` is the live stack pointer, `stack_p` the
shared stack region's base (`kernelStackBase()`) and `image_p` the
corresponding end of the image's private stack alias; the image's page tables
determine `image_p` in the source, and it is taken as an argument here.  The
copy loop terminates after exactly `(stack_p - sp) / 8` iterations whenever
`sp ≤ stack_p` and their difference is a multiple of 8 (otherwise the C loop
never terminates); the source's order of actions is: copy loop, `fence`,
`setVSpaceRoot`, and only then the flag write `kiStackInitted = true`.  An
image with the flag already set only performs the root-register write. -/
def Arch_setKernelImage (image : kernel_image_t) (sp stack_p image_p : Nat) :
    kernel_image_t × List KIEvent :=
  if image.kiStackInitted then
    (image, [.setRoot (addrFromPPtr image.kiRoot) image.kiASID])
  else
    ({ image with kiStackInitted := true },
      stackCopyEvents stack_p image_p ((stack_p - sp) / 8) ++
        [.fenceBarrier, .setRoot (addrFromPPtr image.kiRoot) image.kiASID,
          .setFlag])

def KIEvent.isCopy : KIEvent → Bool
  | .copyWord _ _ => true
  | _ => false

def KIEvent.isSetRoot : KIEvent → Bool
  | .setRoot _ _ => true
  | _ => false

def KIEvent.isSetFlag : KIEvent → Bool
  | .setFlag => true
  | _ => false

/-- The source addresses of the copy events of a trace, in trace order. -/
def copySrcs (t : List KIEvent) : List Nat :=
  t.filterMap fun e =>
    match e with
    | .copyWord src _ => some src
    | _ => none

/-! ## Concrete states used as witnesses and counterexamples -/

/-- A page-table memory with every entry zero (a freshly `memzero`-ed
hierarchy). -/
def zeroPTMem : PTMem := fun _ _ => 0

/-- The PTE word installed by `map_it_pt_cap`-style mapping of a next-level
table at physical base `0x3000`. -/
def ptPointerWord : Nat := pte_new (0x3000 >>> RISCV_4K_PageBits) 0 1 1 0 0 0 0 0 1

/-- A kernel state in which ASID 1 is bound (pool `0x5000`, slot 1) to the
VSpace root `0x2000`, whose level-1 slot 0 holds a pointer to the page table
`0x3000`; i.e. the page table `0x3000` is mapped at virtual address 0 under
ASID 1. -/
def ksMappedPT : KState := {
  ptMem := fun b i => if b = 0x2000 ∧ i = 0 then ptPointerWord else 0
  riscvKSASIDTable := fun h => if h = 0 then some 0x5000 else none
  asidPools := fun p l => if p = 0x5000 ∧ l = 1 then some 0x2000 else none
  cteCaps := fun _ => .null_cap
  threadStateRestarted := false
  lastReply := none }

/-- A kernel state in which ASID 1 is bound (pool `0x600...`, slot 1) to the
empty VSpace root `0x2000`, and slot 100 holds the corresponding mapped
VSpace-root capability. -/
def ksEmptyRoot : KState := {
  ptMem := zeroPTMem
  riscvKSASIDTable := fun h => if h = 0 then some 0x6000 else none
  asidPools := fun p l => if p = 0x6000 ∧ l = 1 then some 0x2000 else none
  cteCaps := fun s => if s = 100 then .page_table_cap 1 0x2000 true 77 else .null_cap
  threadStateRestarted := false
  lastReply := none }

/-- A kernel state with one completely empty ASID pool `700` whose pool index
is 1 (so its ASID base is `2 ^ asidLowBits`, not 0), and a fresh unmapped
VSpace-root capability in slot 40. -/
def ksFreshPool : KState := {
  ptMem := zeroPTMem
  riscvKSASIDTable := fun h => if h = 1 then some 700 else none
  asidPools := fun _ _ => none
  cteCaps := fun s => if s = 40 then .page_table_cap 0 0x9000 false 0 else .null_cap
  threadStateRestarted := false
  lastReply := none }

/-- A kernel state whose ASID table is completely full. -/
def ksFullASIDTable : KState :=
  { ksFreshPool with
    riscvKSASIDTable := fun h => if h < nASIDPools then some (h + 1) else none }

/-- A kernel state with the base-0 pool `700` full in every slot except
slot 0. -/
def ksPoolFullButZero : KState :=
  { ksFreshPool with
    riscvKSASIDTable := fun h => if h = 0 then some 700 else none
    asidPools := fun p l => if p = 700 ∧ 1 ≤ l ∧ l < 2 ^ asidLowBits then some 1
      else none }

/-- The pointer PTE installed for a next-level table at the given base. -/
def tablePointerPTE (target : Nat) : Nat :=
  pte_new (target >>> RISCV_4K_PageBits) 0 1 1 0 0 0 0 0 1

/-- A kernel state in which ASID 1 (pool `0x6000`, slot 1) is bound to root
`0x2000`, slot 100 holds the mapped VSpace-root capability, and the tables
`0x3000` (level 2) and `0x4000` (level 3) are installed along the path of
virtual address 0 — so a 4K frame can be mapped at address 0. -/
def ksFrameMappable : KState := {
  ptMem := fun b i =>
    if b = 0x2000 ∧ i = 0 then tablePointerPTE 0x3000
    else if b = 0x3000 ∧ i = 0 then tablePointerPTE 0x4000
    else 0
  riscvKSASIDTable := fun h => if h = 0 then some 0x6000 else none
  asidPools := fun p l => if p = 0x6000 ∧ l = 1 then some 0x2000 else none
  cteCaps := fun s => if s = 100 then .page_table_cap 1 0x2000 true 77 else .null_cap
  threadStateRestarted := false
  lastReply := none }

/-- An unmapped 4K read-write frame capability at base `0x7000`. -/
def frameCapUnmapped : cap_t :=
  .frame_cap asidInvalid 0x7000 .RISCV_4K_Page .VMReadWrite false 0

/-- PageMap syscall arguments: vaddr 0, rights mask 7, attributes 0. -/
def pageMapArgs : Nat → Nat := fun i => if i = 1 then 7 else 0

/-- A trivial capability-space environment in which the opaque capability-slot
services all succeed. -/
def envOk : CSpaceEnv := {
  ensureNoChildren := fun _ => none
  lookupTargetSlot := fun _ _ _ => .ok 99
  ensureEmptySlot := fun _ => none }

/-- A register file whose SEPC (faulting program counter) is `0x1000` and
whose other registers are zero. -/
def regsSEPC : RegFile := fun r => if r = .SEPC then 0x1000 else 0

/-! ## Theorems -/

/-- C10: `maskVMRights` never escalates access: the masked rights allow a
read (resp. write) only if the input rights allowed a read (resp. write), and
`VMNoAccess` and `VMKernelOnly` are fixed points for every mask. -/
theorem maskVMRights_no_escalation (vm_rights : vm_rights_t)
    (m : seL4_CapRights_t) :
    RISCVGetReadFromVMRights (maskVMRights vm_rights m) ≤
      RISCVGetReadFromVMRights vm_rights ∧
    RISCVGetWriteFromVMRights (maskVMRights vm_rights m) ≤
      RISCVGetWriteFromVMRights vm_rights ∧
    maskVMRights .VMNoAccess m = .VMNoAccess ∧
    maskVMRights .VMKernelOnly m = .VMKernelOnly := by
  obtain ⟨g, r, w⟩ := m
  cases vm_rights <;> cases g <;> cases r <;> cases w <;> decide

/-- C7: `findVSpaceForASID` splits the ASID into high (pool index) and low
(slot index) bits; a null ASID-table entry yields an invalid-root lookup
fault, a null pool entry a missing-capability fault sized to one level-1
(VSpace-root) granularity, and otherwise the stored root pointer is returned
with no fault. -/
theorem findVSpaceForASID_spec (tbl : ASIDTable) (pools : ASIDPools) (asid : Nat) :
    (tbl (asid >>> asidLowBits) = none →
      findVSpaceForASID tbl pools asid =
        ⟨.EXCEPTION_LOOKUP_FAULT, none, some .invalidRoot⟩) ∧
    (∀ p, tbl (asid >>> asidLowBits) = some p →
      pools p (asid &&& MASK asidLowBits) = none →
      findVSpaceForASID tbl pools asid =
        ⟨.EXCEPTION_LOOKUP_FAULT, none,
          some (.missingCapability (RISCV_GET_LVL_PGSIZE_BITS 1))⟩) ∧
    (∀ p root, tbl (asid >>> asidLowBits) = some p →
      pools p (asid &&& MASK asidLowBits) = some root →
      findVSpaceForASID tbl pools asid = ⟨.EXCEPTION_NONE, some root, none⟩) := by
  refine ⟨fun h => ?_, fun p h1 h2 => ?_, fun p root h1 h2 => ?_⟩ <;>
    simp [findVSpaceForASID, *]

theorem findVSpaceForASID_spec_witness :
    ksMappedPT.riscvKSASIDTable (1 >>> asidLowBits) = some 0x5000 ∧
    ksMappedPT.asidPools 0x5000 (1 &&& MASK asidLowBits) = some 0x2000 ∧
    findVSpaceForASID ksMappedPT.riscvKSASIDTable ksMappedPT.asidPools 1 =
      ⟨.EXCEPTION_NONE, some 0x2000, none⟩ ∧
    findVSpaceForASID ksMappedPT.riscvKSASIDTable ksMappedPT.asidPools 5 =
      ⟨.EXCEPTION_LOOKUP_FAULT, none,
        some (.missingCapability (RISCV_GET_LVL_PGSIZE_BITS 1))⟩ ∧
    findVSpaceForASID ksMappedPT.riscvKSASIDTable ksMappedPT.asidPools 4096 =
      ⟨.EXCEPTION_LOOKUP_FAULT, none, some .invalidRoot⟩ :=
  ⟨by decide, by decide,
    (findVSpaceForASID_spec ksMappedPT.riscvKSASIDTable ksMappedPT.asidPools
      1).2.2 0x5000 0x2000 (by decide) (by decide),
    (findVSpaceForASID_spec ksMappedPT.riscvKSASIDTable ksMappedPT.asidPools
      5).2.1 0x5000 (by decide) (by decide),
    (findVSpaceForASID_spec ksMappedPT.riscvKSASIDTable ksMappedPT.asidPools
      4096).1 (by decide)⟩

/-- C4 (counterexample): for an instruction-access fault the next-instruction
register is NOT advanced past the faulting instruction: with SEPC = 0x1000 the
updated NEXTPC equals 0x1000, the faulting instruction's own address, which is
not beyond it. -/
theorem handleVMFault_nextpc_not_advanced_cex :
    Option.map (fun p => p.1 RVRegister.NEXTPC)
      (handleVMFault regsSEPC .RISCVInstructionAccessFault 0x1000) = some 0x1000 ∧
    regsSEPC RVRegister.SEPC = 0x1000 ∧
    ¬ regsSEPC RVRegister.SEPC < 0x1000 := by
  refine ⟨?_, by decide, by decide⟩
  simp [handleVMFault, regsSEPC, setRegister, getRegister]

/-- C4 (amended): the VM fault translator maps the two load causes to a
load-access fault and the two store causes to a store-access fault, each
carrying the faulting address and leaving the registers unchanged; the two
instruction causes yield an instruction-access fault after setting the
thread's NEXTPC register to the faulting instruction's address (the SEPC
value), so the faulting instruction re-executes on restart; every other cause
is kernel-fatal. -/
theorem handleVMFault_translation_spec (regs : RegFile) (addr : Nat) :
    handleVMFault regs .RISCVLoadPageFault addr =
      some (regs, ⟨addr, .RISCVLoadAccessFault, false⟩) ∧
    handleVMFault regs .RISCVLoadAccessFault addr =
      some (regs, ⟨addr, .RISCVLoadAccessFault, false⟩) ∧
    handleVMFault regs .RISCVStorePageFault addr =
      some (regs, ⟨addr, .RISCVStoreAccessFault, false⟩) ∧
    handleVMFault regs .RISCVStoreAccessFault addr =
      some (regs, ⟨addr, .RISCVStoreAccessFault, false⟩) ∧
    handleVMFault regs .RISCVInstructionPageFault addr =
      some (setRegister regs .NEXTPC (regs .SEPC),
        ⟨addr, .RISCVInstructionAccessFault, true⟩) ∧
    handleVMFault regs .RISCVInstructionAccessFault addr =
      some (setRegister regs .NEXTPC (regs .SEPC),
        ⟨addr, .RISCVInstructionAccessFault, true⟩) ∧
    ∀ code, handleVMFault regs (.RISCVOtherFault code) addr = none :=
  ⟨rfl, rfl, rfl, rfl, rfl, rfl, fun _ => rfl⟩

/-- C2 (counterexample): walking a freshly constructed all-zero root to
target level 3 does fail, but the fault's size is the granularity of level 1
(where the walk stopped), not the target level's granularity. -/
theorem lookupPTSlot_emptyRoot_fault_size_cex :
    (lookupPTSlot zeroPTMem 0x1000 0 3).status = .EXCEPTION_LOOKUP_FAULT ∧
    (lookupPTSlot zeroPTMem 0x1000 0 3).currentLookupFault ≠
      some (.missingCapability (RISCV_GET_LVL_PGSIZE_BITS 3)) ∧
    (lookupPTSlot zeroPTMem 0x1000 0 3).currentLookupFault =
      some (.missingCapability (RISCV_GET_LVL_PGSIZE_BITS 1)) := by
  decide

/-- C2 (amended): for every virtual address and every target level of at
least 2, walking a freshly constructed all-zero root fails at the very first
step with a missing-capability fault sized to the page granularity of level 1
— the current level of the walk, where the absent (all-zero) entry was found
— and the returned slot is the root slot at the level-1 index.  (A walk to
target level 1 consults no entry and succeeds.) -/
theorem lookupPTSlot_emptyRoot_faults_at_level_one (lvl1pt vptr ptLevel : Nat)
    (hroot : lvl1pt ≠ 0) (hlevel : 2 ≤ ptLevel) :
    lookupPTSlot zeroPTMem lvl1pt vptr ptLevel =
      ⟨.EXCEPTION_LOOKUP_FAULT, some ⟨lvl1pt, RISCV_GET_PT_INDEX vptr 1⟩, some 2,
        some (.missingCapability (RISCV_GET_LVL_PGSIZE_BITS 1))⟩ := by
  match ptLevel, hlevel with
  | n + 2, _ =>
    simp [lookupPTSlot, hroot, lookupPTSlotAux, readSlot, zeroPTMem,
      Nat.add_sub_cancel]

theorem lookupPTSlot_emptyRoot_faults_at_level_one_witness :
    (0x2000 : Nat) ≠ 0 ∧ 2 ≤ 2 ∧
    lookupPTSlot zeroPTMem 0x2000 0x5000 2 =
      ⟨.EXCEPTION_LOOKUP_FAULT, some ⟨0x2000, RISCV_GET_PT_INDEX 0x5000 1⟩, some 2,
        some (.missingCapability (RISCV_GET_LVL_PGSIZE_BITS 1))⟩ :=
  ⟨by decide, by decide,
    lookupPTSlot_emptyRoot_faults_at_level_one 0x2000 0x5000 2 (by decide)
      (by decide)⟩

/-- C1: in `ksMappedPT` the page table `0x3000` is mapped under ASID 1 at
virtual address 0 and `lookupPageTableLevelSlot` finds it successfully, yet
`performPageTableInvocationUnmap` (whose `unmapPageTable` writes the invalid
PTE only when the lookup did NOT succeed) leaves the parent hardware entry
untouched and non-zero, and a subsequent walk to level 2 at the same address
still succeeds instead of reporting a missing capability: the stale entry
survives. -/
theorem performPageTableInvocationUnmap_leaves_parent_entry :
    (lookupPageTableLevelSlot ksMappedPT 1 0 0x3000).1 = .EXCEPTION_NONE ∧
    (performPageTableInvocationUnmap ksMappedPT
      (.page_table_cap 1 0x3000 true 0) 7).ptMem 0x2000 0 = ptPointerWord ∧
    ptPointerWord ≠ 0 ∧
    (lookupPTSlot (performPageTableInvocationUnmap ksMappedPT
      (.page_table_cap 1 0x3000 true 0) 7).ptMem 0x2000 0 2).status =
      .EXCEPTION_NONE := by
  decide

/-- The copy loop's events in closed form: the `k`-th copy reads from
`stack_p - 8 * (k + 1)`. -/
theorem stackCopyEvents_eq_map (n stack_p image_p : Nat) :
    stackCopyEvents stack_p image_p n =
      (List.range n).map
        (fun k => KIEvent.copyWord (stack_p - 8 * (k + 1)) (image_p - 8 * (k + 1))) := by
  induction n generalizing stack_p image_p with
  | zero => simp [stackCopyEvents]
  | succ n ih =>
    rw [stackCopyEvents, ih, List.range_succ_eq_map, List.map_cons, List.map_map]
    refine congrArg₂ List.cons (by norm_num) ?_
    exact List.map_congr_left fun k _ => by
      simp only [Function.comp_apply]
      congr 1 <;> omega

/-- `copySrcs` distributes over append. -/
theorem copySrcs_append (l1 l2 : List KIEvent) :
    copySrcs (l1 ++ l2) = copySrcs l1 ++ copySrcs l2 := by
  simp [copySrcs]

/-- `copySrcs` of a list of copy events projects out the sources. -/
theorem copySrcs_map (l : List Nat) (a b : Nat → Nat) :
    copySrcs (l.map fun k => KIEvent.copyWord (a k) (b k)) = l.map a := by
  induction l with
  | nil => rfl
  | cons x xs ih => simp [copySrcs, List.filterMap_cons] at ih ⊢; exact ih

/-- C3 (counterexample): on the first activation of an image whose stack is
not yet initialized (here with a 16-byte live stack), the stack-initialized
flag write happens at trace position 4, AFTER the root-register install at
position 3 — not before it as claimed. -/
theorem arch_setKernelImage_flag_not_before_root_cex :
    (Arch_setKernelImage ⟨0x1000, 1, false⟩ 0 16 1016).2.findIdx
      KIEvent.isSetFlag = 4 ∧
    (Arch_setKernelImage ⟨0x1000, 1, false⟩ 0 16 1016).2.findIdx
      KIEvent.isSetRoot = 3 ∧
    ¬ (Arch_setKernelImage ⟨0x1000, 1, false⟩ 0 16 1016).2.findIdx
        KIEvent.isSetFlag <
      (Arch_setKernelImage ⟨0x1000, 1, false⟩ 0 16 1016).2.findIdx
        KIEvent.isSetRoot := by
  decide

/-- C3 (amended): switching to an image whose flag is already set performs
exactly the root-register write.  For a first activation (flag unset, with the
live stack pointer below the stack base and 8-byte alignment as established
by the surrounding kernel), the routine first copies the live stack contents
word by word strictly from high addresses toward low while the old root is
still active, then issues a full ordering barrier, then installs the new root
into the hardware translation-root register, and only after that sets the
stack-initialized flag (last event of the trace); the resulting image record
has the flag set. -/
theorem arch_setKernelImage_event_order (image : kernel_image_t)
    (sp stack_p image_p : Nat) :
    (image.kiStackInitted = true →
      Arch_setKernelImage image sp stack_p image_p =
        (image, [.setRoot (addrFromPPtr image.kiRoot) image.kiASID])) ∧
    (image.kiStackInitted = false → 8 ∣ stack_p - sp → sp ≤ stack_p →
      Arch_setKernelImage image sp stack_p image_p =
        ({ image with kiStackInitted := true },
          (List.range ((stack_p - sp) / 8)).map
            (fun k =>
              KIEvent.copyWord (stack_p - 8 * (k + 1)) (image_p - 8 * (k + 1))) ++
            [.fenceBarrier, .setRoot (addrFromPPtr image.kiRoot) image.kiASID,
              .setFlag]) ∧
      (copySrcs (Arch_setKernelImage image sp stack_p image_p).2).Chain'
        (fun a b => b < a)) := by
  constructor
  · intro h
    simp [Arch_setKernelImage, h]
  · intro h hdvd hle
    have htrace : Arch_setKernelImage image sp stack_p image_p =
        ({ image with kiStackInitted := true },
          (List.range ((stack_p - sp) / 8)).map
            (fun k =>
              KIEvent.copyWord (stack_p - 8 * (k + 1)) (image_p - 8 * (k + 1))) ++
            [.fenceBarrier, .setRoot (addrFromPPtr image.kiRoot) image.kiASID,
              .setFlag]) := by
      simp [Arch_setKernelImage, h, stackCopyEvents_eq_map]
    refine ⟨htrace, ?_⟩
    rw [htrace]
    have hsrcs : copySrcs
        ((List.range ((stack_p - sp) / 8)).map
          (fun k =>
            KIEvent.copyWord (stack_p - 8 * (k + 1)) (image_p - 8 * (k + 1))) ++
          [.fenceBarrier, .setRoot (addrFromPPtr image.kiRoot) image.kiASID,
            .setFlag]) =
        (List.range ((stack_p - sp) / 8)).map (fun k => stack_p - 8 * (k + 1)) := by
      rw [copySrcs_append, copySrcs_map]
      simp [copySrcs, List.filterMap_cons]
    rw [hsrcs, List.chain'_map]
    have hmul : 8 * ((stack_p - sp) / 8) = stack_p - sp := Nat.mul_div_cancel' hdvd
    rcases hn : (stack_p - sp) / 8 with _ | m
    · exact List.chain'_nil
    · rw [List.chain'_range_succ]
      intro k hk
      rw [hn] at hmul
      omega

theorem arch_setKernelImage_event_order_witness :
    Arch_setKernelImage ⟨0x1000, 1, true⟩ 0 16 1016 =
      (⟨0x1000, 1, true⟩, [.setRoot (addrFromPPtr 0x1000) 1]) ∧
    Arch_setKernelImage ⟨0x1000, 1, false⟩ 0 16 1016 =
      (⟨0x1000, 1, true⟩,
        (List.range ((16 - 0) / 8)).map
          (fun k => KIEvent.copyWord (16 - 8 * (k + 1)) (1016 - 8 * (k + 1))) ++
          [.fenceBarrier, .setRoot (addrFromPPtr 0x1000) 1, .setFlag]) ∧
    (copySrcs (Arch_setKernelImage ⟨0x1000, 1, false⟩ 0 16 1016).2).Chain'
      (fun a b => b < a) :=
  ⟨(arch_setKernelImage_event_order ⟨0x1000, 1, true⟩ 0 16 1016).1 rfl,
    ((arch_setKernelImage_event_order ⟨0x1000, 1, false⟩ 0 16 1016).2 rfl
      (by decide) (by decide)).1,
    ((arch_setKernelImage_event_order ⟨0x1000, 1, false⟩ 0 16 1016).2 rfl
      (by decide) (by decide)).2⟩

/-- When the walk loop stops with a lookup fault, the slot it stopped at
holds the all-zero word (that is the loop's only failure condition). -/
theorem lookupPTSlotAux_fault_reads_zero (m : PTMem) (vptr : Nat) :
    ∀ fuel slot i,
      (lookupPTSlotAux m vptr slot i fuel).status = .EXCEPTION_LOOKUP_FAULT →
      readSlotOpt m (lookupPTSlotAux m vptr slot i fuel).ptSlot = 0 := by
  intro fuel
  induction fuel with
  | zero => intro slot i h; simp [lookupPTSlotAux] at h
  | succ fuel ih =>
    intro slot i h
    by_cases hz : readSlot m slot = 0
    · simp [lookupPTSlotAux, hz, readSlotOpt]
    · rw [lookupPTSlotAux, if_neg hz] at h ⊢
      exact ih _ _ h

/-- When `lookupPTSlot` reports a lookup fault, reading through the returned
slot pointer yields zero (either the slot where the walk stopped holds the
all-zero word, or the root was null and no slot was returned). -/
theorem lookupPTSlot_fault_reads_zero (m : PTMem) (lvl1pt vptr ptLevel : Nat)
    (h : (lookupPTSlot m lvl1pt vptr ptLevel).status = .EXCEPTION_LOOKUP_FAULT) :
    readSlotOpt m (lookupPTSlot m lvl1pt vptr ptLevel).ptSlot = 0 := by
  by_cases hr : lvl1pt = 0
  · simp [lookupPTSlot, hr, readSlotOpt]
  · rw [lookupPTSlot, if_neg hr] at h ⊢
    exact lookupPTSlotAux_fault_reads_zero m vptr _ _ _ h

/-- C9: during PageTableMap decode, when the walk to the maximum configured
level stops early with a lookup fault at an all-zero intermediate entry, the
decode does not consult the lookup's status: the occupancy check reads the
slot where the walk stopped (which holds zero, so no DeleteFirst error), and
the invocation succeeds, installing the new page table's pointer PTE exactly
into that slot — the shallowest missing level along the path. -/
theorem pageTableMap_installs_at_stopped_slot (ks : KState)
    (length cte ec : Nat) (cap : cap_t) (args : Nat → Nat)
    (asid lvl1pt mapAddr : Nat)
    (hnotroot : isVTableRoot ks cap = false)
    (hcap : ks.cteCaps ec = .page_table_cap asid lvl1pt true mapAddr)
    (hfind : findVSpaceForASID ks.riscvKSASIDTable ks.asidPools asid =
      ⟨.EXCEPTION_NONE, some lvl1pt, none⟩)
    (hlen : 2 ≤ length)
    (hva : args 0 < kernelBase)
    (hfault : (lookupPTSlot ks.ptMem lvl1pt (args 0) CONFIG_PT_LEVELS).status =
      .EXCEPTION_LOOKUP_FAULT) :
    decodeRISCVPageTableInvocation ks .RISCVPageTableMap length cte cap (some ec)
        args =
      (performPageTableInvocationMap (setThreadStateRestart ks)
        (((cap.set_capPTIsMapped true).set_capPTMappedASID
          asid).set_capPTMappedAddress (args 0))
        cte
        (pte_new (addrFromPPtr cap.get_capPTBasePtr >>> RISCV_4K_PageBits)
          0 1 1 0 0 0 0 0 1)
        (lookupPTSlot ks.ptMem lvl1pt (args 0) CONFIG_PT_LEVELS).ptSlot,
        .success) ∧
    (∀ s, (lookupPTSlot ks.ptMem lvl1pt (args 0) CONFIG_PT_LEVELS).ptSlot = some s →
      readSlot ks.ptMem s = 0) := by
  have hzero := lookupPTSlot_fault_reads_zero ks.ptMem lvl1pt (args 0)
    CONFIG_PT_LEVELS hfault
  constructor
  · simp only [decodeRISCVPageTableInvocation, hnotroot, hcap]
    simp [isValidNativeRoot, isVTableRoot, hcap, hfind, hzero,
      show ¬ (length < 2) by omega, show ¬ (kernelBase ≤ args 0) from not_le.mpr hva,
      cap_t.isPageTableCap, cap_t.get_capPTIsMapped, cap_t.get_capPTBasePtr,
      cap_t.get_capPTMappedASID]
  · intro s hs
    rw [hs, readSlotOpt] at hzero
    exact hzero

theorem pageTableMap_installs_at_stopped_slot_witness :
    decodeRISCVPageTableInvocation ksEmptyRoot .RISCVPageTableMap 2 50
        (.page_table_cap 0 0x3000 false 0) (some 100) (fun _ => 0) =
      (performPageTableInvocationMap (setThreadStateRestart ksEmptyRoot)
        ((((cap_t.page_table_cap 0 0x3000 false 0).set_capPTIsMapped
          true).set_capPTMappedASID 1).set_capPTMappedAddress 0)
        50
        (pte_new
          (addrFromPPtr (cap_t.page_table_cap 0 0x3000 false 0).get_capPTBasePtr >>>
            RISCV_4K_PageBits) 0 1 1 0 0 0 0 0 1)
        (lookupPTSlot ksEmptyRoot.ptMem 0x2000 0 CONFIG_PT_LEVELS).ptSlot,
        .success) ∧
    (∀ s, (lookupPTSlot ksEmptyRoot.ptMem 0x2000 0 CONFIG_PT_LEVELS).ptSlot = some s →
      readSlot ksEmptyRoot.ptMem s = 0) :=
  pageTableMap_installs_at_stopped_slot ksEmptyRoot 2 50 100
    (.page_table_cap 0 0x3000 false 0) (fun _ => 0) 1 0x2000 77
    (by decide) (by decide) (by decide) (by decide) (by decide) (by decide)

/-- `updatePTE` touches only page-table memory, never capability slots. -/
theorem updatePTE_cteCaps (ks : KState) (pte : Nat) (r : pte_range_t) :
    (updatePTE ks pte r).cteCaps = ks.cteCaps := by
  unfold updatePTE
  split <;> rfl

/-- C6: a frame capability that is already mapped (mapped-ASID field valid)
is rejected during PageMap decode with `InvalidCapability 0` whenever the
named virtual address differs from the capability's existing mapped address;
and every successful PageMap decode stores back, into the invoked slot, the
frame capability stamped with the auxiliary root's ASID and the named virtual
address — so a second PageMap of that capability at a different address fails
with `InvalidCapability`. -/
theorem pageMap_already_mapped_requires_same_vaddr :
    (∀ (ks : KState) (length cte ec asidF base mappedAddr : Nat)
        (sz : vm_page_size_t) (rights : vm_rights_t) (dev : Bool)
        (args : Nat → Nat),
      3 ≤ length → asidF ≠ asidInvalid → mappedAddr ≠ args 0 →
      decodeRISCVFrameInvocation ks .RISCVPageMap length cte
          (.frame_cap asidF base sz rights dev mappedAddr) (some ec) args =
        (ks, .syscallError (.invalidCapability 0))) ∧
    (∀ (ks : KState) (length cte ec : Nat) (cap : cap_t) (args : Nat → Nat)
        (ks2 : KState),
      decodeRISCVFrameInvocation ks .RISCVPageMap length cte cap (some ec) args =
        (ks2, .success) →
      ks2.cteCaps cte =
        (cap.set_capFMappedASID
          ((ks.cteCaps ec).get_capPTMappedASID)).set_capFMappedAddress (args 0)) := by
  constructor
  · intro ks length cte ec asidF base mappedAddr sz rights dev args hlen hasid haddr
    simp only [decodeRISCVFrameInvocation]
    simp [show ¬ (length < 3) by omega, cap_t.get_capFMappedASID,
      cap_t.get_capFMappedAddress, hasid, haddr]
  · intro ks length cte ec cap args ks2 h
    simp only [decodeRISCVFrameInvocation] at h
    repeat' split at h
    all_goals injection h with h1 h2
    all_goals try injection h2
    all_goals subst h1
    all_goals simp [performPageInvocationMapPTE, updatePTE_cteCaps, updateCte]

theorem pageMap_already_mapped_requires_same_vaddr_witness :
    decodeRISCVFrameInvocation ksFrameMappable .RISCVPageMap 3 60
        (.frame_cap 5 0x7000 .RISCV_4K_Page .VMReadWrite false 0x1000) (some 100)
        (fun _ => 0x2000) =
      (ksFrameMappable, .syscallError (.invalidCapability 0)) ∧
    (decodeRISCVFrameInvocation ksFrameMappable .RISCVPageMap 3 60 frameCapUnmapped
        (some 100) pageMapArgs).1.cteCaps 60 =
      (frameCapUnmapped.set_capFMappedASID
        ((ksFrameMappable.cteCaps 100).get_capPTMappedASID)).set_capFMappedAddress
        (pageMapArgs 0) :=
  ⟨pageMap_already_mapped_requires_same_vaddr.1 ksFrameMappable 3 60 100 5 0x7000
      0x1000 .RISCV_4K_Page .VMReadWrite false (fun _ => 0x2000) (by decide)
      (by decide) (by decide),
    pageMap_already_mapped_requires_same_vaddr.2 ksFrameMappable 3 60 100
      frameCapUnmapped pageMapArgs
      (decodeRISCVFrameInvocation ksFrameMappable .RISCVPageMap 3 60
        frameCapUnmapped (some 100) pageMapArgs).1 rfl⟩

/-- A linear scan over a fully-occupied range runs to the end. -/
theorem linScanAux_full (occupied : Nat → Bool) (fuel : Nat) :
    ∀ i, (∀ j, i ≤ j → j < i + fuel → occupied j = true) →
      linScanAux occupied i fuel = i + fuel := by
  induction fuel with
  | zero => intro i _; simp [linScanAux]
  | succ fuel ih =>
    intro i h
    rw [linScanAux, if_pos (h i le_rfl (by omega)),
      ih (i + 1) (fun j hj1 hj2 => h j (by omega) (by omega))]
    omega

/-- C8 (counterexample): ASIDPoolAssign does NOT skip slot 0 of every pool:
assigning into the completely empty pool whose ASID base is `2 ^ asidLowBits`
(pool index 1, so no ASID in it is 0) succeeds and binds the root into the
pool's slot 0. -/
theorem asidPoolAssign_slot_zero_not_skipped_cex :
    (decodeRISCVMMUInvocation envOk ksFreshPool .RISCVASIDPoolAssign 0 3
      (.asid_pool_cap (2 ^ asidLowBits) 700) (some 40) none (fun _ => 0)).2 =
      .success ∧
    (decodeRISCVMMUInvocation envOk ksFreshPool .RISCVASIDPoolAssign 0 3
      (.asid_pool_cap (2 ^ asidLowBits) 700) (some 40) none
      (fun _ => 0)).1.asidPools 700 0 = some 0x9000 := by
  decide

/-- C8 (amended): both decode scans are linear first-free scans, and
exhaustion fails with DeleteFirst.  ASIDControlMakePool scans the ASID table
for the first empty pool slot and fails with DeleteFirst when every slot is
occupied; ASIDPoolAssign scans the target pool's array linearly, skipping
exactly the slot whose resulting ASID would be 0 (slot 0 of the base-0 pool
only, not slot 0 of every pool), and fails with DeleteFirst when every slot
is occupied-or-skipped. -/
theorem asid_scan_exhaustion_deleteFirst :
    (∀ (env : CSpaceEnv) (ks : KState) (length cte ec0 ec1 : Nat)
        (args : Nat → Nat),
      2 ≤ length →
      (∀ j, j < nASIDPools → (ks.riscvKSASIDTable j).isSome = true) →
      decodeRISCVMMUInvocation env ks .RISCVASIDControlMakePool length cte
          .asid_control_cap (some ec0) (some ec1) args =
        (ks, .syscallError .deleteFirst)) ∧
    (∀ (env : CSpaceEnv) (ks : KState) (length cte vslot asidBase poolPtr : Nat)
        (ec1 : Option Nat) (args : Nat → Nat),
      (ks.cteCaps vslot).get_capPTMappedASID = asidInvalid →
      ks.riscvKSASIDTable (asidBase >>> asidLowBits) = some poolPtr →
      (∀ j, j < 2 ^ asidLowBits →
        (asidBase + j == 0 || (ks.asidPools poolPtr j).isSome) = true) →
      decodeRISCVMMUInvocation env ks .RISCVASIDPoolAssign length cte
          (.asid_pool_cap asidBase poolPtr) (some vslot) ec1 args =
        (ks, .syscallError .deleteFirst)) := by
  constructor
  · intro env ks length cte ec0 ec1 args hlen hfull
    have hscan : linScan (fun j => (ks.riscvKSASIDTable j).isSome) nASIDPools =
        nASIDPools := by
      rw [linScan, linScanAux_full _ _ _ (fun j h1 h2 => hfull j (by omega))]
      omega
    simp only [decodeRISCVMMUInvocation]
    simp [hscan, show ¬ (length < 2) by omega]
  · intro env ks length cte vslot asidBase poolPtr ec1 args hmapped htbl hfull
    have hscan : linScan
        (fun j => asidBase + j == 0 || (ks.asidPools poolPtr j).isSome)
        (2 ^ asidLowBits) = 2 ^ asidLowBits := by
      rw [linScan, linScanAux_full _ _ _ (fun j h1 h2 => hfull j (by omega))]
      omega
    simp only [decodeRISCVMMUInvocation]
    simp [cap_t.get_capASIDBase, cap_t.get_capASIDPool, hmapped, htbl, hscan]

theorem asid_scan_exhaustion_deleteFirst_witness :
    decodeRISCVMMUInvocation envOk ksFullASIDTable .RISCVASIDControlMakePool 2 3
        .asid_control_cap (some 1) (some 2) (fun _ => 0) =
      (ksFullASIDTable, .syscallError .deleteFirst) ∧
    decodeRISCVMMUInvocation envOk ksPoolFullButZero .RISCVASIDPoolAssign 0 3
        (.asid_pool_cap 0 700) (some 40) none (fun _ => 0) =
      (ksPoolFullButZero, .syscallError .deleteFirst) :=
  ⟨asid_scan_exhaustion_deleteFirst.1 envOk ksFullASIDTable 2 3 1 2 (fun _ => 0)
      (by decide) (by decide),
    asid_scan_exhaustion_deleteFirst.2 envOk ksPoolFullButZero 0 3 40 0 700 none
      (fun _ => 0) (by decide) (by decide) (by decide)⟩

/-- Every error return of the page-table decoder leaves the state exactly as
it was (mutations happen only on the perform paths, which return success). -/
theorem decodeRISCVPageTableInvocation_error_eq (ks : KState)
    (label : InvocationLabel) (length cte : Nat) (cap : cap_t)
    (extraCap0 : Option Nat) (args : Nat → Nat) (ks2 : KState)
    (e : syscall_error_t)
    (h : decodeRISCVPageTableInvocation ks label length cte cap extraCap0 args =
      (ks2, .syscallError e)) : ks2 = ks := by
  delta decodeRISCVPageTableInvocation at h
  by_cases h1 : isVTableRoot ks cap = true
  · rw [if_pos h1] at h
    injection h with ha hb
    exact ha.symm
  · rw [if_neg h1] at h
    by_cases h2 : label = InvocationLabel.RISCVPageTableUnmap
    · rw [if_pos h2] at h
      injection h with ha hb
      injection hb
    · rw [if_neg h2] at h
      by_cases h3 : label = InvocationLabel.RISCVPageTableMap
      · rw [if_neg (by simp [h3])] at h
        by_cases h4 : length < 2
        · rw [if_pos h4] at h
          injection h with ha hb
          exact ha.symm
        · rw [if_neg h4] at h
          cases extraCap0 with
          | none =>
            injection h with ha hb
            exact ha.symm
          | some ec =>
            simp only [] at h
            repeat' split at h
            all_goals injection h with ha hb
            all_goals try injection hb
            all_goals exact ha.symm
      · rw [if_pos h3] at h
        injection h with ha hb
        exact ha.symm

/-- Every error return of the frame decoder leaves the state exactly as it
was. -/
theorem decodeRISCVFrameInvocation_error_eq (ks : KState)
    (label : InvocationLabel) (length cte : Nat) (cap : cap_t)
    (extraCap0 : Option Nat) (args : Nat → Nat) (ks2 : KState)
    (e : syscall_error_t)
    (h : decodeRISCVFrameInvocation ks label length cte cap extraCap0 args =
      (ks2, .syscallError e)) : ks2 = ks := by
  cases label <;>
    · simp only [decodeRISCVFrameInvocation] at h
      repeat' split at h
      all_goals injection h with ha hb
      all_goals try injection hb
      all_goals exact ha.symm

/-- C5: whenever the MMU invocation decoder (page-table, frame, ASID-control
and ASID-pool invocations alike) returns a typed syscall error, no page-table
entry and no capability slot has been modified: the state is returned
unchanged on every decode failure. -/
theorem decodeRISCVMMUInvocation_error_preserves_state (env : CSpaceEnv)
    (ks : KState) (label : InvocationLabel) (length cte : Nat) (cap : cap_t)
    (extraCap0 extraCap1 : Option Nat) (args : Nat → Nat) (ks2 : KState)
    (e : syscall_error_t)
    (h : decodeRISCVMMUInvocation env ks label length cte cap extraCap0 extraCap1
      args = (ks2, .syscallError e)) :
    ks2.ptMem = ks.ptMem ∧ ks2.cteCaps = ks.cteCaps := by
  suffices hks : ks2 = ks by rw [hks]; exact ⟨rfl, rfl⟩
  cases cap with
  | page_table_cap a b m v =>
    exact decodeRISCVPageTableInvocation_error_eq ks label length cte
      (.page_table_cap a b m v) extraCap0 args ks2 e h
  | frame_cap a b s r d v =>
    exact decodeRISCVFrameInvocation_error_eq ks label length cte
      (.frame_cap a b s r d v) extraCap0 args ks2 e h
  | asid_control_cap =>
    simp only [decodeRISCVMMUInvocation] at h
    by_cases hl : label = InvocationLabel.RISCVASIDControlMakePool
    · rw [if_neg (not_not_intro hl)] at h
      by_cases hlen : length < 2
      · rw [if_pos hlen] at h
        injection h with ha hb
        exact ha.symm
      · rw [if_neg hlen] at h
        cases extraCap0 <;> cases extraCap1 <;> simp only [] at h <;>
          repeat' split at h
        all_goals injection h with ha hb
        all_goals try injection hb
        all_goals exact ha.symm
    · rw [if_pos hl] at h
      injection h with ha hb
      exact ha.symm
  | asid_pool_cap base pool =>
    simp only [decodeRISCVMMUInvocation] at h
    by_cases hl : label = InvocationLabel.RISCVASIDPoolAssign
    · rw [if_neg (not_not_intro hl)] at h
      cases extraCap0 <;> simp only [] at h <;> repeat' split at h
      all_goals injection h with ha hb
      all_goals try injection hb
      all_goals exact ha.symm
    · rw [if_pos hl] at h
      injection h with ha hb
      exact ha.symm
  | null_cap =>
    simp only [decodeRISCVMMUInvocation] at h
    injection h with ha hb
    injection hb
  | untyped_cap a b c d =>
    simp only [decodeRISCVMMUInvocation] at h
    injection h with ha hb
    injection hb
  | other_cap t =>
    simp only [decodeRISCVMMUInvocation] at h
    injection h with ha hb
    injection hb

theorem decodeRISCVMMUInvocation_error_preserves_state_witness :
    (decodeRISCVMMUInvocation envOk ksFreshPool .RISCVPageTableMap 2 3
      .asid_control_cap (some 1) (some 2) (fun _ => 0)).1.ptMem =
      ksFreshPool.ptMem ∧
    (decodeRISCVMMUInvocation envOk ksFreshPool .RISCVPageTableMap 2 3
      .asid_control_cap (some 1) (some 2) (fun _ => 0)).1.cteCaps =
      ksFreshPool.cteCaps :=
  decodeRISCVMMUInvocation_error_preserves_state envOk ksFreshPool
    .RISCVPageTableMap 2 3 .asid_control_cap (some 1) (some 2) (fun _ => 0)
    (decodeRISCVMMUInvocation envOk ksFreshPool .RISCVPageTableMap 2 3
      .asid_control_cap (some 1) (some 2) (fun _ => 0)).1
    .illegalOperation rfl

end SeL4
